import Mathlib

/-!
# ChurchDatabase dashboard (`core/static/js/dashboard.js`)

A shallow embedding of the dashboard's action dispatcher, remote fragment
loaders, delete confirmation and toast notifier, with the properties of the
specification stated over it.

Modelling conventions
* A JavaScript value that flows through the code (an id read from a data
  attribute, a response field) is a `JSValue`.  Numbers are integers in the
  range where JavaScript prints them in plain decimal; objects and `NaN` are
  outside the model.
* A function body is the list of calls it makes, in program order
  (`Effect`), and a request is a record holding its method, its URL and its
  two callbacks, each callback again a function to a list of calls.
* The response handed to a `$.get` success callback has the expected shape:
  an object with an `html` string field.
-/

namespace Dashboard

/-! ## JavaScript values -/

/-- The JavaScript values that reach the dashboard code. -/
inductive JSValue where
  | undefined
  | null
  | bool (b : Bool)
  | number (n : Int)
  | string (s : String)
  deriving DecidableEq, Repr

namespace JSValue

/-- JavaScript truthiness (`ToBoolean`), as used by `x ? a : b` and `if (x)`. -/
def truthy : JSValue → Bool
  | undefined => false
  | null => false
  | bool b => b
  | number n => n != 0
  | string s => s != ""

/-- String conversion (`ToString`), as performed by a template literal. -/
def toStr : JSValue → String
  | undefined => "undefined"
  | null => "null"
  | bool true => "true"
  | bool false => "false"
  | number n => toString n
  | string s => s

end JSValue

/-! ## Entity kinds -/

/-- The five entity kinds the dispatcher is registered for. -/
inductive Kind where
  | member
  | family
  | unit
  | cell
  | assembly
  deriving DecidableEq, Repr

namespace Kind

/-- The kind's name as it appears in class names, modal ids and data keys. -/
def name : Kind → String
  | member => "member"
  | family => "family"
  | unit => "unit"
  | cell => "cell"
  | assembly => "assembly"

/-- The path segment the detail and form loaders of the kind use. -/
def segment : Kind → String
  | member => "members"
  | family => "families"
  | unit => "units"
  | cell => "cells"
  | assembly => "assemblies"

end Kind

/-! ## Calls and requests -/

/-- The tasks the file hands to `setTimeout`: the arrow function of lines 383-385. -/
inductive Deferred where
  | reloadPage
  deriving DecidableEq, Repr

/-- One call made by a function body or callback. -/
inductive Effect where
  /-- Call `e.preventDefault()`. -/
  | preventDefault
  /-- Call `console.error(label, text)`. -/
  | consoleError (label : String) (text : JSValue)
  /-- Call `$(selector).html(content)`. -/
  | html (selector : String) (content : String)
  /-- Call `$(selector).modal(action)`. -/
  | modal (selector : String) (action : String)
  /-- Call `$(selector).on(event, handler)`. -/
  | on (selector : String) (event : String)
  /-- Call `showToast(type, message)`. -/
  | showToast (type : String) (message : JSValue)
  /-- Call `setTimeout(task, delay)`. -/
  | setTimeout (task : Deferred) (delay : Nat)
  /-- Call `location.reload()`. -/
  | locationReload
  /-- Call `showBulkDeleteConfirmation(ids, type)`. -/
  | showBulkDeleteConfirmation (ids : List String) (type : String)
  deriving DecidableEq, Repr

/-- The calls a deferred task makes once its timer fires. -/
def Deferred.run : Deferred → List Effect
  | .reloadPage => [.locationReload]

/-- The object a `$.get` success callback receives. -/
structure GetData where
  html : String
  deriving DecidableEq, Repr

/-- The object a failure callback receives. -/
structure Xhr where
  responseText : JSValue
  deriving DecidableEq, Repr

/-- A request as issued by `$.get` or `$.ajax`: method, URL and callbacks. -/
structure Ajax (ρ : Type) where
  type : String
  url : String
  success : ρ → List Effect
  error : Xhr → List Effect

/-! ## Detail loaders -/

/-- Function `showMemberDetails(memberId)`, lines 158-166. -/
def showMemberDetails (memberId : JSValue) : List (Ajax GetData) :=
  [{ type := "GET"
     url := "/ajax/members/" ++ memberId.toStr ++ "/"
     success := fun data =>
       [.html "#modalContainer" data.html,
        .modal "#memberDetailModal" "show"]
     error := fun xhr =>
       [.consoleError "Failed to load member details:" xhr.responseText,
        .showToast "error" (.string "Failed to load member details.")] }]

/-- Function `showFamilyDetails(familyId)`, lines 181-189. -/
def showFamilyDetails (familyId : JSValue) : List (Ajax GetData) :=
  [{ type := "GET"
     url := "/ajax/families/" ++ familyId.toStr ++ "/"
     success := fun data =>
       [.html "#modalContainer" data.html,
        .modal "#familyDetailModal" "show"]
     error := fun xhr =>
       [.consoleError "Failed to load family details:" xhr.responseText,
        .showToast "error" (.string "Failed to load family details.")] }]

/-- The static fragment the cell detail loader falls back to, lines 212-229. -/
def cellFallbackHtml : String :=
  "\n" ++
  "            <div class=\"modal fade\" id=\"cellDetailModal\" tabindex=\"-1\">\n" ++
  "                <div class=\"modal-dialog\">\n" ++
  "                    <div class=\"modal-content\">\n" ++
  "                        <div class=\"modal-header\">\n" ++
  "                            <h5 class=\"modal-title\">Cell Details</h5>\n" ++
  "                            <button type=\"button\" class=\"btn-close\" data-bs-dismiss=\"modal\"></button>\n" ++
  "                        </div>\n" ++
  "                        <div class=\"modal-body\">\n" ++
  "                            <p>Loading cell details...</p>\n" ++
  "                        </div>\n" ++
  "                        <div class=\"modal-footer\">\n" ++
  "                            <button type=\"button\" class=\"btn btn-secondary\" data-bs-dismiss=\"modal\">Close</button>\n" ++
  "                        </div>\n" ++
  "                    </div>\n" ++
  "                </div>\n" ++
  "            </div>\n" ++
  "        "

/-- The static fragment the assembly detail loader falls back to, lines 256-273. -/
def assemblyFallbackHtml : String :=
  "\n" ++
  "            <div class=\"modal fade\" id=\"assemblyDetailModal\" tabindex=\"-1\">\n" ++
  "                <div class=\"modal-dialog modal-lg\">\n" ++
  "                    <div class=\"modal-content\">\n" ++
  "                        <div class=\"modal-header\">\n" ++
  "                            <h5 class=\"modal-title\">Assembly Details</h5>\n" ++
  "                            <button type=\"button\" class=\"btn-close\" data-bs-dismiss=\"modal\"></button>\n" ++
  "                        </div>\n" ++
  "                        <div class=\"modal-body\">\n" ++
  "                            <p>Loading assembly details...</p>\n" ++
  "                        </div>\n" ++
  "                        <div class=\"modal-footer\">\n" ++
  "                            <button type=\"button\" class=\"btn btn-secondary\" data-bs-dismiss=\"modal\">Close</button>\n" ++
  "                        </div>\n" ++
  "                    </div>\n" ++
  "                </div>\n" ++
  "            </div>\n" ++
  "        "

/-- The static fragment the unit detail loader falls back to, lines 300-317. -/
def unitFallbackHtml : String :=
  "\n" ++
  "            <div class=\"modal fade\" id=\"unitDetailModal\" tabindex=\"-1\">\n" ++
  "                <div class=\"modal-dialog\">\n" ++
  "                    <div class=\"modal-content\">\n" ++
  "                        <div class=\"modal-header\">\n" ++
  "                            <h5 class=\"modal-title\">Unit Details</h5>\n" ++
  "                            <button type=\"button\" class=\"btn-close\" data-bs-dismiss=\"modal\"></button>\n" ++
  "                        </div>\n" ++
  "                        <div class=\"modal-body\">\n" ++
  "                            <p>Loading unit details...</p>\n" ++
  "                        </div>\n" ++
  "                        <div class=\"modal-footer\">\n" ++
  "                            <button type=\"button\" class=\"btn btn-secondary\" data-bs-dismiss=\"modal\">Close</button>\n" ++
  "                        </div>\n" ++
  "                    </div>\n" ++
  "                </div>\n" ++
  "            </div>\n" ++
  "        "

/-- Function `showCellDetails(cellId)`, lines 204-233. -/
def showCellDetails (cellId : JSValue) : List (Ajax GetData) :=
  [{ type := "GET"
     url := "/ajax/cells/" ++ cellId.toStr ++ "/"
     success := fun data =>
       [.html "#modalContainer" data.html,
        .modal "#cellDetailModal" "show"]
     error := fun xhr =>
       [.consoleError "Failed to load cell details:" xhr.responseText,
        .html "#modalContainer" cellFallbackHtml,
        .modal "#cellDetailModal" "show"] }]

/-- Function `showAssemblyDetails(assemblyId)`, lines 248-277. -/
def showAssemblyDetails (assemblyId : JSValue) : List (Ajax GetData) :=
  [{ type := "GET"
     url := "/ajax/assemblies/" ++ assemblyId.toStr ++ "/"
     success := fun data =>
       [.html "#modalContainer" data.html,
        .modal "#assemblyDetailModal" "show"]
     error := fun xhr =>
       [.consoleError "Failed to load assembly details:" xhr.responseText,
        .html "#modalContainer" assemblyFallbackHtml,
        .modal "#assemblyDetailModal" "show"] }]

/-- Function `showUnitDetails(unitId)`, lines 292-321. -/
def showUnitDetails (unitId : JSValue) : List (Ajax GetData) :=
  [{ type := "GET"
     url := "/ajax/units/" ++ unitId.toStr ++ "/"
     success := fun data =>
       [.html "#modalContainer" data.html,
        .modal "#unitDetailModal" "show"]
     error := fun xhr =>
       [.consoleError "Failed to load unit details:" xhr.responseText,
        .html "#modalContainer" unitFallbackHtml,
        .modal "#unitDetailModal" "show"] }]

/-- The detail loader of each kind. -/
def showDetails : Kind → JSValue → List (Ajax GetData)
  | .member => showMemberDetails
  | .family => showFamilyDetails
  | .unit => showUnitDetails
  | .cell => showCellDetails
  | .assembly => showAssemblyDetails

/-! ## Form loaders -/

/-- The value a parameter declared `x = null` has in the body: the default
applies when the argument is left out or is `undefined`. -/
def defaultNull : Option JSValue → JSValue
  | none => .null
  | some .undefined => .null
  | some v => v

/-- Function `loadMemberForm(memberId = null)`, lines 168-178. -/
def loadMemberForm (arg : Option JSValue) : List (Ajax GetData) :=
  let memberId := defaultNull arg
  let url := if memberId.truthy then "/ajax/members/form/" ++ memberId.toStr ++ "/" else "/ajax/members/form/"
  [{ type := "GET"
     url := url
     success := fun data =>
       [.html "#modalContainer" data.html,
        .modal "#memberFormModal" "show"]
     error := fun xhr =>
       [.consoleError "Failed to load member form:" xhr.responseText,
        .showToast "error" (.string "Failed to load member form. Please try again.")] }]

/-- Function `loadFamilyForm(familyId = null)`, lines 191-201. -/
def loadFamilyForm (arg : Option JSValue) : List (Ajax GetData) :=
  let familyId := defaultNull arg
  let url := if familyId.truthy then "/ajax/families/form/" ++ familyId.toStr ++ "/" else "/ajax/families/form/"
  [{ type := "GET"
     url := url
     success := fun data =>
       [.html "#modalContainer" data.html,
        .modal "#familyFormModal" "show"]
     error := fun xhr =>
       [.consoleError "Failed to load family form:" xhr.responseText,
        .showToast "error" (.string "Failed to load family form. Please try again.")] }]

/-- Function `loadCellForm(cellId = null)`, lines 235-245. -/
def loadCellForm (arg : Option JSValue) : List (Ajax GetData) :=
  let cellId := defaultNull arg
  let url := if cellId.truthy then "/ajax/cells/form/" ++ cellId.toStr ++ "/" else "/ajax/cells/form/"
  [{ type := "GET"
     url := url
     success := fun data =>
       [.html "#modalContainer" data.html,
        .modal "#cellFormModal" "show"]
     error := fun xhr =>
       [.consoleError "Failed to load cell form:" xhr.responseText,
        .showToast "error" (.string "Failed to load cell form. Please try again.")] }]

/-- Function `loadAssemblyForm(assemblyId = null)`, lines 279-289. -/
def loadAssemblyForm (arg : Option JSValue) : List (Ajax GetData) :=
  let assemblyId := defaultNull arg
  let url := if assemblyId.truthy then "/ajax/assemblies/form/" ++ assemblyId.toStr ++ "/" else "/ajax/assemblies/form/"
  [{ type := "GET"
     url := url
     success := fun data =>
       [.html "#modalContainer" data.html,
        .modal "#assemblyFormModal" "show"]
     error := fun xhr =>
       [.consoleError "Failed to load assembly form:" xhr.responseText,
        .showToast "error" (.string "Failed to load assembly form. Please try again.")] }]

/-- Function `loadUnitForm(unitId = null)`, lines 323-333. -/
def loadUnitForm (arg : Option JSValue) : List (Ajax GetData) :=
  let unitId := defaultNull arg
  let url := if unitId.truthy then "/ajax/units/form/" ++ unitId.toStr ++ "/" else "/ajax/units/form/"
  [{ type := "GET"
     url := url
     success := fun data =>
       [.html "#modalContainer" data.html,
        .modal "#unitFormModal" "show"]
     error := fun xhr =>
       [.consoleError "Failed to load unit form:" xhr.responseText,
        .showToast "error" (.string "Failed to load unit form. Please try again.")] }]

/-- The form loader of each kind. -/
def loadForm : Kind → Option JSValue → List (Ajax GetData)
  | .member => loadMemberForm
  | .family => loadFamilyForm
  | .unit => loadUnitForm
  | .cell => loadCellForm
  | .assembly => loadAssemblyForm

/-! ## Delete confirmation and execution -/

/-- The object a delete request's success callback receives. -/
structure DeleteResponse where
  success : JSValue
  message : JSValue
  deriving DecidableEq, Repr

/-- Function `deleteObject(objectId, objectType)`, lines 373-394. -/
def deleteObject (objectId objectType : JSValue) : List (Ajax DeleteResponse) :=
  let url := "/ajax/" ++ objectType.toStr ++ "s/delete/" ++ objectId.toStr ++ "/"
  [{ type := "POST"
     url := url
     success := fun response =>
       if response.success.truthy then
         [.modal "#deleteConfirmationModal" "hide",
          .showToast "success" response.message,
          .setTimeout .reloadPage 1000]
       else
         []
     error := fun xhr =>
       [.consoleError "Delete failed:" xhr.responseText,
        .showToast "error" (.string "Failed to delete. Please try again."),
        .modal "#deleteConfirmationModal" "hide"] }]

/-- The confirmation fragment before the interpolated message, lines 338-349. -/
def deleteModalHead : String :=
  "\n" ++
  "        <div class=\"modal fade\" id=\"deleteConfirmationModal\" tabindex=\"-1\">\n" ++
  "            <div class=\"modal-dialog\">\n" ++
  "                <div class=\"modal-content\">\n" ++
  "                    <div class=\"modal-header\">\n" ++
  "                        <h5 class=\"modal-title text-danger\">Confirm Deletion</h5>\n" ++
  "                        <button type=\"button\" class=\"btn-close\" data-bs-dismiss=\"modal\"></button>\n" ++
  "                    </div>\n" ++
  "                    <div class=\"modal-body\">\n" ++
  "                        <p class=\"text-danger\">\n" ++
  "                            <i class=\"fas fa-exclamation-triangle me-2\"></i>\n" ++
  "                            "

/-- The confirmation fragment between the message and the id, lines 349-355. -/
def deleteModalMid : String :=
  "\n" ++
  "                        </p>\n" ++
  "                        <p class=\"text-muted\">This action cannot be undone.</p>\n" ++
  "                    </div>\n" ++
  "                    <div class=\"modal-footer\">\n" ++
  "                        <button type=\"button\" class=\"btn btn-secondary\" data-bs-dismiss=\"modal\">Cancel</button>\n" ++
  "                        <button type=\"button\" class=\"btn btn-danger\" id=\"confirmDeleteBtn\" data-object-id=\""

/-- The confirmation fragment between the id and the type, line 355. -/
def deleteModalSep : String :=
  "\" data-object-type=\""

/-- The confirmation fragment after the type, lines 355-360. -/
def deleteModalTail : String :=
  "\">Delete</button>\n" ++
  "                    </div>\n" ++
  "                </div>\n" ++
  "            </div>\n" ++
  "        </div>\n" ++
  "    "

/-- The constant `message` of `showDeleteConfirmation`, line 337. -/
def deleteMessage (objectName : JSValue) : String :=
  "Are you sure you want to delete " ++ objectName.toStr ++ "?"

/-- The constant `modalHtml` of `showDeleteConfirmation`, lines 338-360. -/
def deleteModalHtml (objectId objectName objectType : JSValue) : String :=
  deleteModalHead ++ deleteMessage objectName ++ deleteModalMid ++ objectId.toStr ++
    deleteModalSep ++ objectType.toStr ++ deleteModalTail

/-- Function `showDeleteConfirmation(objectId, objectName, objectType)`, lines 336-370. -/
def showDeleteConfirmation (objectId objectName objectType : JSValue) : List Effect :=
  [.html "#modalContainer" (deleteModalHtml objectId objectName objectType),
   .modal "#deleteConfirmationModal" "show",
   .on "#confirmDeleteBtn" "click"]

/-- An element a handler runs on, seen through `$(this).data(key)`. -/
structure Element where
  data : String → JSValue

/-- What a click handler did: the calls it made, then the requests it issued. -/
structure Dispatch where
  effects : List Effect
  requests : List (Ajax GetData)

/-- The handlers registered on `.view-{kind}`, lines 9-13, 31-35, 53-57, 75-79, 97-101. -/
def viewClick : Kind → Element → Dispatch
  | .member, this => ⟨[.preventDefault], showMemberDetails (this.data "member-id")⟩
  | .family, this => ⟨[.preventDefault], showFamilyDetails (this.data "family-id")⟩
  | .unit, this => ⟨[.preventDefault], showUnitDetails (this.data "unit-id")⟩
  | .cell, this => ⟨[.preventDefault], showCellDetails (this.data "cell-id")⟩
  | .assembly, this => ⟨[.preventDefault], showAssemblyDetails (this.data "assembly-id")⟩

/-- The handlers registered on `.edit-{kind}`, lines 16-20, 38-42, 60-64, 82-86, 104-108. -/
def editClick : Kind → Element → Dispatch
  | .member, this => ⟨[.preventDefault], loadMemberForm (some (this.data "member-id"))⟩
  | .family, this => ⟨[.preventDefault], loadFamilyForm (some (this.data "family-id"))⟩
  | .unit, this => ⟨[.preventDefault], loadUnitForm (some (this.data "unit-id"))⟩
  | .cell, this => ⟨[.preventDefault], loadCellForm (some (this.data "cell-id"))⟩
  | .assembly, this => ⟨[.preventDefault], loadAssemblyForm (some (this.data "assembly-id"))⟩

/-- The handlers registered on `.delete-{kind}`, lines 23-28, 45-50, 67-72, 89-94, 111-116. -/
def deleteClick : Kind → Element → Dispatch
  | .member, this =>
      ⟨.preventDefault ::
        showDeleteConfirmation (this.data "member-id") (this.data "member-name") (.string "member"), []⟩
  | .family, this =>
      ⟨.preventDefault ::
        showDeleteConfirmation (this.data "family-id") (this.data "family-name") (.string "family"), []⟩
  | .unit, this =>
      ⟨.preventDefault ::
        showDeleteConfirmation (this.data "unit-id") (this.data "unit-name") (.string "unit"), []⟩
  | .cell, this =>
      ⟨.preventDefault ::
        showDeleteConfirmation (this.data "cell-id") (this.data "cell-name") (.string "cell"), []⟩
  | .assembly, this =>
      ⟨.preventDefault ::
        showDeleteConfirmation (this.data "assembly-id") (this.data "assembly-name")
          (.string "assembly"), []⟩

/-- The handlers registered on `#add{Kind}Btn, #add{Kind}BtnEmpty`, lines 119-142. -/
def addClick : Kind → Dispatch
  | .member => ⟨[.preventDefault], loadMemberForm none⟩
  | .family => ⟨[.preventDefault], loadFamilyForm none⟩
  | .unit => ⟨[.preventDefault], loadUnitForm none⟩
  | .cell => ⟨[.preventDefault], loadCellForm none⟩
  | .assembly => ⟨[.preventDefault], loadAssemblyForm none⟩

/-- An element of class `member-checkbox`: whether it is checked and what `val()` returns. -/
structure Checkbox where
  checked : Bool
  value : String
  deriving DecidableEq, Repr

/-- The handler registered on `#bulkDelete`, lines 145-154; `memberCheckboxes` are the
elements of class `member-checkbox` in document order. -/
def bulkDeleteClick (memberCheckboxes : List Checkbox) : List Effect :=
  let selectedMembers := (memberCheckboxes.filter fun c => c.checked).map fun c => c.value
  .preventDefault ::
    (if selectedMembers.length > 0 then
      [.showBulkDeleteConfirmation selectedMembers "member"]
    else
      [])

/-! ## Toast notifier -/

/-- A node of the page: character data, or an element with its tag, class list,
other attributes and children. -/
inductive Node where
  | text (data : String)
  | element (tag : String) (classes : List String) (attrs : List (String × String))
      (children : List Node)

mutual
/-- The elements of class `cls` in a node, in document order: `$('.cls')`. -/
def Node.select (cls : String) : Node → List Node
  | .text _ => []
  | .element tag classes attrs children =>
      (if cls ∈ classes then [Node.element tag classes attrs children] else []) ++
        selectAll cls children
/-- The elements of class `cls` in a list of sibling nodes, in document order. -/
def selectAll (cls : String) : List Node → List Node
  | [] => []
  | n :: ns => n.select cls ++ selectAll cls ns
end

mutual
/-- A node after `$('.cls').remove()`: gone if it has the class, else kept with
its children treated alike. -/
def Node.detach (cls : String) : Node → List Node
  | .text d => [.text d]
  | .element tag classes attrs children =>
      if cls ∈ classes then [] else [.element tag classes attrs (detachAll cls children)]
/-- A list of sibling nodes after `$('.cls').remove()`. -/
def detachAll (cls : String) : List Node → List Node
  | [] => []
  | n :: ns => n.detach cls ++ detachAll cls ns
end

/-- The constant `icon` of `showToast`, lines 401-403. -/
def toastIcon (type : String) : String :=
  if type = "success" then "check-circle"
  else if type = "error" then "exclamation-triangle"
  else if type = "warning" then "exclamation-triangle"
  else "info-circle"

/-- The colour interpolated after `bg-` in the toast markup, line 406. -/
def toastColor (type : String) : String :=
  if type = "success" then "success"
  else if type = "error" then "danger"
  else if type = "warning" then "warning"
  else "info"

/-- The element the toast markup of lines 405-415 denotes, the message being
character data (white-space text between the tags left out). -/
def toastNode (type : String) (message : JSValue) : Node :=
  .element "div"
    ["toast", "align-items-center", "text-white", "bg-" ++ toastColor type, "border-0",
      "position-fixed", "top-0", "end-0", "m-3"]
    [("role", "alert"), ("style", "z-index: 9999;")]
    [.element "div" ["d-flex"] []
      [.element "div" ["toast-body"] []
        [.element "i" ["fas", "fa-" ++ toastIcon type, "me-2"] [] [],
         .text message.toStr],
       .element "button" ["btn-close", "btn-close-white", "me-2", "m-auto"]
        [("type", "button"), ("data-bs-dismiss", "toast")] []]]

/-- Function `showToast(type, message)`, lines 397-424, on the children of
`body`: every element of class `toast` is removed, then the new toast is
appended.  Activating the toast and registering its `hidden.bs.toast` handler
neither add nor drop a node before the function returns. -/
def showToast (body : List Node) (type : String) (message : JSValue) : List Node :=
  let body := detachAll "toast" body
  let toast := toastNode type message
  body ++ [toast]

/-! ## Paths through the file -/

/-- Every handler and callback of the file, with the values it runs on. -/
inductive Path where
  | viewHandler (k : Kind) (this : Element)
  | editHandler (k : Kind) (this : Element)
  | deleteHandler (k : Kind) (this : Element)
  | addHandler (k : Kind)
  | bulkDeleteHandler (memberCheckboxes : List Checkbox)
  | detailSuccess (k : Kind) (id : JSValue) (data : GetData)
  | detailError (k : Kind) (id : JSValue) (xhr : Xhr)
  | formSuccess (k : Kind) (arg : Option JSValue) (data : GetData)
  | formError (k : Kind) (arg : Option JSValue) (xhr : Xhr)
  | deleteConfirmation (objectId objectName objectType : JSValue)
  | confirmClick (this : Element)
  | deleteSuccess (objectId objectType : JSValue) (response : DeleteResponse)
  | deleteError (objectId objectType : JSValue) (xhr : Xhr)
  | timer (task : Deferred)

/-- The calls a path makes, in program order. -/
def Path.trace : Path → List Effect
  | .viewHandler k this => (viewClick k this).effects
  | .editHandler k this => (editClick k this).effects
  | .deleteHandler k this => (deleteClick k this).effects
  | .addHandler k => (addClick k).effects
  | .bulkDeleteHandler cbs => bulkDeleteClick cbs
  | .detailSuccess k id data => ((showDetails k id).map fun r => r.success data).flatten
  | .detailError k id xhr => ((showDetails k id).map fun r => r.error xhr).flatten
  | .formSuccess k arg data => ((loadForm k arg).map fun r => r.success data).flatten
  | .formError k arg xhr => ((loadForm k arg).map fun r => r.error xhr).flatten
  | .deleteConfirmation objectId objectName objectType =>
      showDeleteConfirmation objectId objectName objectType
  | .confirmClick _ => []
  | .deleteSuccess objectId objectType response =>
      ((deleteObject objectId objectType).map fun r => r.success response).flatten
  | .deleteError objectId objectType xhr =>
      ((deleteObject objectId objectType).map fun r => r.error xhr).flatten
  | .timer task => task.run

/-- Whether a call shows a toast. -/
def Effect.isToast : Effect → Bool
  | .showToast _ _ => true
  | _ => false

/-- Whether a call acts on a modal, showing or hiding it. -/
def Effect.isModal : Effect → Bool
  | .modal _ _ => true
  | _ => false

/-- Whether a call writes the content of an element. -/
def Effect.isHtml : Effect → Bool
  | .html _ _ => true
  | _ => false

/-- The values of the checked checkboxes, in document order, each once. -/
def checkedValues : List Checkbox → List String
  | [] => []
  | c :: cs => if c.checked then c.value :: checkedValues cs else checkedValues cs

/-- Whether `sub` occurs in `s` as a run of consecutive characters. -/
def occursIn (sub s : String) : Prop :=
  sub.data <:+: s.data

instance (sub s : String) : Decidable (occursIn sub s) :=
  inferInstanceAs (Decidable (sub.data <:+: s.data))

/-! ## Properties -/

theorem append_slash_ne_empty (base s : String) : base ++ s ++ "/" ≠ base := by
  intro h
  have h2 := congrArg String.length h
  have h1 : "/".length = 1 := rfl
  simp only [String.length_append, h1] at h2
  omega

/-! ### Detail loaders -/

/-- C1, as stated, fails: the family detail loader requests `/ajax/families/3/`
for id 3, not `/ajax/familys/3/`. -/
theorem family_detail_url_counterexample :
    ¬ ∀ (k : Kind) (id : JSValue),
        ((showDetails k id).map fun r => r.url) =
          ["/ajax/" ++ k.name ++ "s/" ++ id.toStr ++ "/"] := by
  intro h
  have h3 := h .family (.number 3)
  revert h3
  decide

/-- C1, amended: for every kind and id the detail loader issues one request, a
GET to `/ajax/{segment}/{id}/`, where the segment is `families` for family,
`assemblies` for assembly and the kind name followed by `s` for member, unit
and cell. -/
theorem showDetails_url (k : Kind) (id : JSValue) :
    ((showDetails k id).map fun r => (r.type, r.url)) =
        [("GET", "/ajax/" ++ k.segment ++ "/" ++ id.toStr ++ "/")] ∧
      k.segment =
        (if k = .family then "families"
         else if k = .assembly then "assemblies"
         else k.name ++ "s") := by
  cases k <;> exact ⟨rfl, by decide⟩

/-! ### Form loaders -/

/-- C2, as stated, fails: called with the number 0 the member form loader
requests the create path `/ajax/members/form/`, not `/ajax/members/form/0/`,
and called with the empty string likewise. -/
theorem loadMemberForm_zero_counterexample :
    ((loadForm .member (some (.number 0))).map fun r => r.url) = ["/ajax/members/form/"] ∧
      ((loadForm .member (some (.number 0))).map fun r => r.url) ≠
        ["/ajax/members/" ++ "form/" ++ (JSValue.number 0).toStr ++ "/"] ∧
      ((loadForm .member (some (.string ""))).map fun r => r.url) = ["/ajax/members/form/"] ∧
      ((loadForm .member (some (.string ""))).map fun r => r.url) ≠
        ["/ajax/members/" ++ "form/" ++ (JSValue.string "").toStr ++ "/"] := by
  decide

/-- C2, amended: every form loader issues one GET request; for a truthy
identifier its URL is the base path of the kind followed by `form/{id}/`; with
no identifier, or with a falsy one (`undefined`, `null`, `false`, 0, the empty
string), it is the create path, base followed by `form/`; and the create path is
requested in no other case. -/
theorem loadForm_url (k : Kind) :
    (∀ id : JSValue, id.truthy = true →
        ((loadForm k (some id)).map fun r => (r.type, r.url)) =
          [("GET", "/ajax/" ++ k.segment ++ "/" ++ "form/" ++ id.toStr ++ "/")]) ∧
      (∀ id : JSValue, id.truthy = false →
        ((loadForm k (some id)).map fun r => (r.type, r.url)) =
          [("GET", "/ajax/" ++ k.segment ++ "/" ++ "form/")]) ∧
      ((loadForm k none).map fun r => (r.type, r.url)) =
        [("GET", "/ajax/" ++ k.segment ++ "/" ++ "form/")] ∧
      (∀ arg : Option JSValue,
        ((loadForm k arg).map fun r => r.url) = ["/ajax/" ++ k.segment ++ "/" ++ "form/"] ↔
          (arg = none ∨ ∃ id, arg = some id ∧ id.truthy = false)) := by
  have edit : ∀ id : JSValue, id.truthy = true →
      ((loadForm k (some id)).map fun r => (r.type, r.url)) =
        [("GET", "/ajax/" ++ k.segment ++ "/" ++ "form/" ++ id.toStr ++ "/")] := by
    intro id h
    have hd : defaultNull (some id) = id := by
      cases id <;> simp_all [defaultNull, JSValue.truthy]
    cases k <;>
      simp [loadForm, loadMemberForm, loadFamilyForm, loadUnitForm, loadCellForm,
        loadAssemblyForm, hd, h, Kind.segment, String.append_assoc]
  have create : ∀ id : JSValue, id.truthy = false →
      ((loadForm k (some id)).map fun r => (r.type, r.url)) =
        [("GET", "/ajax/" ++ k.segment ++ "/" ++ "form/")] := by
    intro id h
    have hd : (defaultNull (some id)).truthy = false := by
      cases id <;> simp_all [defaultNull, JSValue.truthy]
    cases k <;>
      simp [loadForm, loadMemberForm, loadFamilyForm, loadUnitForm, loadCellForm,
        loadAssemblyForm, hd, Kind.segment]
  have absent : ((loadForm k none).map fun r => (r.type, r.url)) =
      [("GET", "/ajax/" ++ k.segment ++ "/" ++ "form/")] := by
    cases k <;> rfl
  refine ⟨edit, create, absent, ?_⟩
  intro arg
  constructor
  · intro h
    cases arg with
    | none => exact Or.inl rfl
    | some id =>
      refine Or.inr ⟨id, rfl, ?_⟩
      by_contra ht
      have ht2 : id.truthy = true := by simpa using ht
      have h2 := congrArg (List.map Prod.snd) (edit id ht2)
      simp only [List.map_map, List.map_cons, List.map_nil] at h2
      have h3 : ((loadForm k (some id)).map fun r => r.url) =
          ((loadForm k (some id)).map (Prod.snd ∘ fun r => (r.type, r.url))) := rfl
      rw [h3, h2] at h
      simp only [List.cons.injEq, and_true] at h
      exact append_slash_ne_empty _ _ h
  · rintro (rfl | ⟨id, rfl, hf⟩)
    · have h2 := congrArg (List.map Prod.snd) absent
      simpa [List.map_map] using h2
    · have h2 := congrArg (List.map Prod.snd) (create id hf)
      simpa [List.map_map] using h2

/-- C2, at concrete values: the member form loader called with 42 requests
`/ajax/members/form/42/`. -/
theorem loadForm_url_witness :
    ((loadForm .member (some (.number 42))).map fun r => (r.type, r.url)) =
      [("GET", "/ajax/members/form/42/")] :=
  (loadForm_url .member).1 (.number 42) (by decide)

/-! ### Delete execution -/

/-- C4: for every id and type `deleteObject` issues exactly one request, a POST
to `/ajax/{type}s/delete/{id}/`; for id 42 and type member the URL is
`/ajax/members/delete/42/`. -/
theorem deleteObject_request (objectId objectType : JSValue) :
    ((deleteObject objectId objectType).map fun r => (r.type, r.url)) =
        [("POST", "/ajax/" ++ objectType.toStr ++ "s/delete/" ++ objectId.toStr ++ "/")] ∧
      (∀ t : String, (JSValue.string t).toStr = t) ∧
      ((deleteObject (.number 42) (.string "member")).map fun r => (r.type, r.url)) =
        [("POST", "/ajax/members/delete/42/")] :=
  ⟨rfl, fun _ => rfl, by decide⟩

/-- C5: on a response whose success flag is truthy the success callback of
`deleteObject` hides the confirmation modal, then shows a success toast with
the message of the response, then schedules one reload 1000 ms later; it does
not call `location.reload()` itself, the deferred task does. -/
theorem deleteObject_success_trace (objectId objectType : JSValue) (response : DeleteResponse)
    (h : response.success.truthy = true) :
    (Path.deleteSuccess objectId objectType response).trace =
        [.modal "#deleteConfirmationModal" "hide",
         .showToast "success" response.message,
         .setTimeout .reloadPage 1000] ∧
      Effect.locationReload ∉ (Path.deleteSuccess objectId objectType response).trace ∧
      (Path.timer .reloadPage).trace = [.locationReload] := by
  have ht : (Path.deleteSuccess objectId objectType response).trace =
      [.modal "#deleteConfirmationModal" "hide",
       .showToast "success" response.message,
       .setTimeout .reloadPage 1000] := by
    simp [Path.trace, deleteObject, h]
  refine ⟨ht, ?_, rfl⟩
  rw [ht]
  simp

/-- C5, at concrete values: a response flagged `true` with the message
"Member deleted." -/
theorem deleteObject_success_trace_witness :
    (Path.deleteSuccess (.number 42) (.string "member")
        ⟨.bool true, .string "Member deleted."⟩).trace =
      [.modal "#deleteConfirmationModal" "hide",
       .showToast "success" (.string "Member deleted."),
       .setTimeout .reloadPage 1000] :=
  (deleteObject_success_trace (.number 42) (.string "member")
    ⟨.bool true, .string "Member deleted."⟩ rfl).1

/-- C3, the code at the failing input: a delete response that arrives with
`success` false, or without the field, makes the success callback do nothing
(the modal is not hidden, no toast is shown, no reload is scheduled), for every
id, type and message; the error callback of the same request logs the failure,
shows the error toast and hides the modal. -/
theorem deleteObject_unflagged_response_silent (objectId objectType message : JSValue)
    (xhr : Xhr) :
    (Path.deleteSuccess (.number 42) (.string "member")
        ⟨.bool false, .string "Cannot delete this member."⟩).trace = [] ∧
      (Path.deleteSuccess objectId objectType ⟨.bool false, message⟩).trace = [] ∧
      (Path.deleteSuccess objectId objectType ⟨.undefined, message⟩).trace = [] ∧
      (Path.deleteError objectId objectType xhr).trace =
        [.consoleError "Delete failed:" xhr.responseText,
         .showToast "error" (.string "Failed to delete. Please try again."),
         .modal "#deleteConfirmationModal" "hide"] :=
  ⟨rfl, rfl, rfl, rfl⟩

/-! ### Failed detail loads -/

/-- C6: when a detail fetch fails, the handlers of cell, unit and assembly log
the failure, replace the content of the modal container with a fragment that
depends on neither the id nor the failure and holds a modal of id
`{kind}DetailModal`, then show that modal, and show no toast; the handlers of
member and family log the failure and show an error toast, write no content and
act on no modal. -/
theorem detailError_trace :
    (∀ k ∈ [Kind.cell, Kind.unit, Kind.assembly], ∃ label fragment : String,
        occursIn ("id=\"" ++ k.name ++ "DetailModal\"") fragment ∧
        ∀ (id : JSValue) (xhr : Xhr),
          (Path.detailError k id xhr).trace =
              [.consoleError label xhr.responseText,
               .html "#modalContainer" fragment,
               .modal ("#" ++ k.name ++ "DetailModal") "show"] ∧
            ∀ e ∈ (Path.detailError k id xhr).trace, e.isToast = false) ∧
      (∀ k ∈ [Kind.member, Kind.family], ∃ label message : String,
        ∀ (id : JSValue) (xhr : Xhr),
          (Path.detailError k id xhr).trace =
              [.consoleError label xhr.responseText,
               .showToast "error" (.string message)] ∧
            ∀ e ∈ (Path.detailError k id xhr).trace, e.isHtml = false ∧ e.isModal = false) := by
  constructor
  · intro k hk
    simp only [List.mem_cons, List.mem_singleton, List.not_mem_nil, or_false] at hk
    rcases hk with rfl | rfl | rfl
    · refine ⟨"Failed to load cell details:", cellFallbackHtml, by decide, fun id xhr => ⟨rfl, ?_⟩⟩
      simp [Path.trace, showDetails, showCellDetails, Effect.isToast]
    · refine ⟨"Failed to load unit details:", unitFallbackHtml, by decide, fun id xhr => ⟨rfl, ?_⟩⟩
      simp [Path.trace, showDetails, showUnitDetails, Effect.isToast]
    · refine ⟨"Failed to load assembly details:", assemblyFallbackHtml, by decide,
        fun id xhr => ⟨rfl, ?_⟩⟩
      simp [Path.trace, showDetails, showAssemblyDetails, Effect.isToast]
  · intro k hk
    simp only [List.mem_cons, List.mem_singleton, List.not_mem_nil, or_false] at hk
    rcases hk with rfl | rfl
    · refine ⟨"Failed to load member details:", "Failed to load member details.",
        fun id xhr => ⟨rfl, ?_⟩⟩
      simp [Path.trace, showDetails, showMemberDetails, Effect.isHtml, Effect.isModal]
    · refine ⟨"Failed to load family details:", "Failed to load family details.",
        fun id xhr => ⟨rfl, ?_⟩⟩
      simp [Path.trace, showDetails, showFamilyDetails, Effect.isHtml, Effect.isModal]

/-! ### Toast notifier -/

theorem selectAll_append (cls : String) (xs ys : List Node) :
    selectAll cls (xs ++ ys) = selectAll cls xs ++ selectAll cls ys := by
  induction xs with
  | nil => simp [selectAll]
  | cons x xs ih => simp [selectAll, ih]

mutual
theorem Node.select_detach (cls : String) : ∀ n : Node, selectAll cls (n.detach cls) = []
  | .text d => by simp [Node.detach, selectAll, Node.select]
  | .element tag classes attrs children => by
      by_cases h : cls ∈ classes
      · simp [Node.detach, h, selectAll]
      · simp [Node.detach, h, selectAll, Node.select, selectAll_detachAll cls children]
theorem selectAll_detachAll (cls : String) :
    ∀ ns : List Node, selectAll cls (detachAll cls ns) = []
  | [] => by simp [detachAll, selectAll]
  | n :: ns => by
      simp [detachAll, selectAll_append, Node.select_detach cls n, selectAll_detachAll cls ns]
end

theorem checkedValues_eq (cbs : List Checkbox) :
    ((cbs.filter fun c => c.checked).map fun c => c.value) = checkedValues cbs := by
  induction cbs with
  | nil => rfl
  | cons c cs ih =>
    by_cases h : c.checked = true
    · simp [checkedValues, List.filter_cons, h, ih]
    · simp [checkedValues, List.filter_cons, h, ih]

theorem checkedValues_sublist (cbs : List Checkbox) :
    (checkedValues cbs).Sublist (cbs.map fun c => c.value) := by
  rw [← checkedValues_eq]
  exact (List.filter_sublist cbs).map _

theorem checkedValues_eq_nil (cbs : List Checkbox) :
    checkedValues cbs = [] ↔ ∀ c ∈ cbs, c.checked = false := by
  rw [← checkedValues_eq]
  simp [List.filter_eq_nil_iff]

/-- C8: the `#bulkDelete` handler, after `preventDefault`, makes no call when
no checkbox is checked and otherwise exactly one call, to
`showBulkDeleteConfirmation` with type `member` and with the values of the
checked checkboxes: a sublist of all values in document order, one entry per
checked checkbox. -/
theorem bulkDeleteClick_trace (memberCheckboxes : List Checkbox) :
    ((∀ c ∈ memberCheckboxes, c.checked = false) →
        bulkDeleteClick memberCheckboxes = [.preventDefault]) ∧
      ((∃ c ∈ memberCheckboxes, c.checked = true) →
        bulkDeleteClick memberCheckboxes =
          [.preventDefault,
           .showBulkDeleteConfirmation (checkedValues memberCheckboxes) "member"]) ∧
      (checkedValues memberCheckboxes).Sublist (memberCheckboxes.map fun c => c.value) ∧
      (checkedValues memberCheckboxes).length =
        memberCheckboxes.countP fun c => c.checked := by
  refine ⟨?_, ?_, checkedValues_sublist _, ?_⟩
  · intro h
    have h0 := (checkedValues_eq_nil memberCheckboxes).2 h
    simp [bulkDeleteClick, checkedValues_eq, h0]
  · rintro ⟨c, hc, hchk⟩
    have hne : checkedValues memberCheckboxes ≠ [] := by
      intro h0
      have := (checkedValues_eq_nil memberCheckboxes).1 h0 c hc
      simp [hchk] at this
    have hpos : 0 < (checkedValues memberCheckboxes).length := List.length_pos.2 hne
    simp [bulkDeleteClick, checkedValues_eq, hpos]
  · rw [← checkedValues_eq, List.length_map, List.countP_eq_length_filter]

/-- C8, at concrete values: of three checkboxes the first and third are
checked. -/
theorem bulkDeleteClick_trace_witness :
    bulkDeleteClick [⟨true, "7"⟩, ⟨false, "8"⟩, ⟨true, "9"⟩] =
      [.preventDefault, .showBulkDeleteConfirmation ["7", "9"] "member"] :=
  (bulkDeleteClick_trace [⟨true, "7"⟩, ⟨false, "8"⟩, ⟨true, "9"⟩]).2.1
    ⟨⟨true, "7"⟩, by decide, rfl⟩

/-! ### Delete confirmation -/

end Dashboard
